import Mathlib

/-!
Verification of the project-scaffold service (src/project_scaffold).

The development shallowly embeds the Python modules `models.py`, `config.py`,
`generator.py`, `renderers/api.py` and `server.py`:

* pure data classes become Lean structures;
* the filesystem becomes an explicit `FS` state (existing file paths, existing
  directories, and the parsed content of `.scaffold.json` manifest files);
  every operation is written in state-passing style `FS → FS × Result`;
* Python exceptions (e.g. the `FileNotFoundError` raised by
  `ProjectGenerator.from_existing`) become `Except PyErr`;
* rendered template text and the generated Python source text are opaque: no
  claim concerns file contents, so a write is modelled as adding the path to
  the filesystem (the spec itself declares content an external collaborator);
* the human-readable `next_steps` strings of the results are presentation-only
  prose referenced by no claim and are not modelled.
-/

namespace ProjectScaffold

/-- `project_type` of `models.ProjectConfig`: Literal["work", "personal"]. -/
inductive ProjectType where
  | work
  | personal
deriving DecidableEq, Repr

/-- `frontend_type` of `models.ProjectConfig`: Literal["react", "htmx"]. -/
inductive FrontendType where
  | react
  | htmx
deriving DecidableEq, Repr

/-- `models.ProjectConfig` (a pydantic model).  Field order and defaults follow
the source.  `api_port`/`frontend_port` are plain integers in the source and
are only substituted into rendered content. -/
structure ProjectConfig where
  name : String
  project_type : ProjectType
  frontend_type : FrontendType
  description : String := ""
  output_dir : String
  use_current_dir : Bool := false
  db_name : Option String := none
  include_auth : Bool := true
  include_alembic : Bool := true
  api_port : Int := 8000
  frontend_port : Int := 3000
  include_tdd : Bool := false
  include_redis : Bool := false
  include_sse : Bool := false
deriving DecidableEq, Repr

/-- Python `str.replace("-", "_")`: with a single-character pattern this is a
character-wise map (stated so because `String.replace` does not reduce in the
kernel). -/
def hyphenToUnderscore (s : String) : String :=
  String.mk (s.data.map (fun ch => if ch = '-' then '_' else ch))

/-- Python `str.lower()`: character-wise lowering (stated over the character
list because `String.toLower` walks byte positions and does not reduce in the
kernel). -/
def strToLower (s : String) : String :=
  String.mk (s.data.map Char.toLower)

/-- `ProjectConfig.resolved_db_name`: `self.db_name or self.name.replace("-", "_")`. -/
def ProjectConfig.resolved_db_name (c : ProjectConfig) : String :=
  c.db_name.getD (hyphenToUnderscore c.name)

/-- `ProjectConfig.python_package_name`: `self.name.replace("-", "_")`. -/
def ProjectConfig.python_package_name (c : ProjectConfig) : String :=
  hyphenToUnderscore c.name

/-- `ProjectConfig.is_multi_repo`: `self.frontend_type == "react"`. -/
def ProjectConfig.is_multi_repo (c : ProjectConfig) : Bool :=
  match c.frontend_type with
  | .react => true
  | .htmx => false

/-- `component` of `models.ComponentConfig`. -/
inductive ComponentType where
  | api_router
  | db_model
  | frontend_page
  | github_action
  | docker_service
deriving DecidableEq, Repr

/-- Printable form of a component type, matching the Python literals. -/
def ComponentType.str : ComponentType → String
  | .api_router => "api_router"
  | .db_model => "db_model"
  | .frontend_page => "frontend_page"
  | .github_action => "github_action"
  | .docker_service => "docker_service"

/-- `models.ComponentConfig`.  `fields` is the optional `{name: type}` dict;
Python dicts preserve insertion order, so it is modelled as an ordered
association list. -/
structure ComponentConfig where
  project_dir : String
  component : ComponentType
  name : String
  fields : Option (List (String × String)) := none
deriving DecidableEq, Repr

/-- `config.SCAFFOLD_METADATA_FILE`. -/
def scaffoldMetadataFile : String := ".scaffold.json"

/-- The parsed content of a `.scaffold.json` file, as written by
`ProjectGenerator._write_metadata`.  `scaffold_version` and `created_at` are
constants/timestamps echoed verbatim and referenced by no claim; the fields
modelled here are the ones `from_existing`, `info` and `_update_metadata`
read or write.  `components` is the ordered list of `{type, name}` records. -/
structure Manifest where
  project_name : String
  project_type : ProjectType
  frontend_type : FrontendType
  description : String
  db_name : String
  include_auth : Bool
  include_alembic : Bool
  api_port : Int
  frontend_port : Int
  use_current_dir : Bool
  include_tdd : Bool
  include_redis : Bool
  include_sse : Bool
  components : List (String × String)
deriving DecidableEq, Repr

/-- The filesystem state.  `files` and `dirs` are the existing paths (absolute
path strings); `manifests` maps a `.scaffold.json` path to its parsed content,
newest entry first (a write conses, so `List.lookup` sees the latest value).
Directory creation via `mkdir(parents=True)` implied by writing a file is not
tracked path-by-path; `dirs` records only directories the claims observe. -/
structure FS where
  files : List String
  dirs : List String
  manifests : List (String × Manifest)
deriving DecidableEq, Repr

/-- The empty filesystem. -/
def emptyFS : FS := ⟨[], [], []⟩

instance {ε α : Type} [DecidableEq ε] [DecidableEq α] : DecidableEq (Except ε α) :=
  fun x y =>
    match x, y with
    | .ok a, .ok b => decidable_of_iff (a = b) (by simp)
    | .error a, .error b => decidable_of_iff (a = b) (by simp)
    | .ok _, .error _ => isFalse (by simp)
    | .error _, .ok _ => isFalse (by simp)

/-- Boolean string-prefix test on the underlying character lists. -/
def strIsPre (p s : String) : Bool := p.data.isPrefixOf s.data

/-- Boolean substring test on the underlying character lists: some suffix of
`s` starts with `pat`. -/
def strHasSub (pat s : String) : Bool :=
  (List.range (s.data.length + 1)).any (fun i => pat.data.isPrefixOf (s.data.drop i))

/-- `Path.exists()` for a path expected to be a regular file. -/
def FS.fileExists (fs : FS) (p : String) : Bool := fs.files.contains p

/-- `Path.exists()`: true when the path exists as a file or a directory. -/
def FS.pathExists (fs : FS) (p : String) : Bool :=
  fs.files.contains p || fs.dirs.contains p

/-- `any(path.iterdir())`: the directory has at least one child, i.e. some
existing path lies strictly below it. -/
def FS.hasChild (fs : FS) (p : String) : Bool :=
  fs.files.any (fun q => strIsPre (p ++ "/") q) ||
    fs.dirs.any (fun q => strIsPre (p ++ "/") q)

/-- `ProjectGenerator.__init__`: the project root is `output_dir` itself when
`use_current_dir`, else `output_dir/name`. -/
def projectRoot (c : ProjectConfig) : String :=
  if c.use_current_dir then c.output_dir else c.output_dir ++ "/" ++ c.name

/-- The generator object: its configuration and the computed project root. -/
structure ProjectGenerator where
  config : ProjectConfig
  project_root : String
deriving DecidableEq, Repr

/-- Build a generator from a configuration, as `ProjectGenerator.__init__` does. -/
def mkGenerator (c : ProjectConfig) : ProjectGenerator := ⟨c, projectRoot c⟩

/-- `ProjectGenerator._api_root` as a path string. -/
def apiRoot (g : ProjectGenerator) : String :=
  if g.config.is_multi_repo then g.project_root ++ "/" ++ g.config.name ++ "-api"
  else g.project_root

/-- `ProjectGenerator._frontend_root` as a path string. -/
def frontendRoot (g : ProjectGenerator) : String :=
  g.project_root ++ "/" ++ g.config.name ++ "-frontend"

/-- Path of a file in the API tree, relative to the project root: prefixed by
`{name}-api/` in multi-repo mode (mirrors the `api()` helper of
`_expected_files` and the effect of `_api_root` on recorded relative paths). -/
def apiPath (c : ProjectConfig) (p : String) : String :=
  if c.is_multi_repo then c.name ++ "-api/" ++ p else p

/-- Path of a file in the frontend tree, relative to the project root (the
`fe()` helper; only reached when the frontend is react, hence multi-repo). -/
def fePath (c : ProjectConfig) (p : String) : String :=
  c.name ++ "-frontend/" ++ p

/-- Relative paths recorded by `_generate_common`, in write order. -/
def commonFiles (c : ProjectConfig) : List String :=
  ["README.md", ".env.example", "Makefile"] ++
    (if c.is_multi_repo then [apiPath c ".gitignore", fePath c ".gitignore"]
     else [".gitignore"])

/-- Relative paths recorded by `_generate_docker`. -/
def dockerFiles : List String :=
  ["docker-compose.yml", "docker-compose.override.yml"]

/-- Relative paths recorded by `_generate_api`, in write order (root files,
app module, `app/__init__.py`, models, schemas, routers, optional SSE router,
tests). -/
def apiFiles (c : ProjectConfig) : List String :=
  [apiPath c "pyproject.toml", apiPath c "Dockerfile", apiPath c "startup.sh",
   apiPath c "app/main.py", apiPath c "app/config.py", apiPath c "app/database.py",
   apiPath c "app/dependencies.py", apiPath c "app/__init__.py",
   apiPath c "app/models/__init__.py", apiPath c "app/models/base.py",
   apiPath c "app/models/user.py",
   apiPath c "app/schemas/__init__.py", apiPath c "app/schemas/common.py",
   apiPath c "app/schemas/user.py",
   apiPath c "app/routers/__init__.py", apiPath c "app/routers/health.py",
   apiPath c "app/routers/users.py"] ++
  (if c.include_sse then [apiPath c "app/routers/sse.py"] else []) ++
  [apiPath c "tests/__init__.py", apiPath c "tests/conftest.py",
   apiPath c "tests/test_health.py"]

/-- Relative paths recorded by `_generate_react_frontend` (the `public/`
directory is created but records no file). -/
def reactFiles (c : ProjectConfig) : List String :=
  [fePath c "package.json", fePath c "vite.config.ts", fePath c "tsconfig.json",
   fePath c "tsconfig.node.json", fePath c "index.html", fePath c "Dockerfile",
   fePath c "nginx.conf",
   fePath c "src/main.tsx", fePath c "src/App.tsx", fePath c "src/vite-env.d.ts",
   fePath c "src/api/client.ts", fePath c "src/pages/Home.tsx",
   fePath c "src/components/Layout.tsx", fePath c "src/styles/globals.css"]

/-- Relative paths recorded by `_generate_htmx_templates`. -/
def htmxFiles (c : ProjectConfig) : List String :=
  [apiPath c "app/templates/base.html", apiPath c "app/templates/index.html",
   apiPath c "app/templates/partials/user_list.html",
   apiPath c "app/templates/partials/user_form.html",
   apiPath c "app/static/css/style.css",
   apiPath c "app/routers/pages.py"]

/-- Relative paths recorded by `_generate_azure_cicd`. -/
def azureFiles (c : ProjectConfig) : List String :=
  [apiPath c ".github/workflows/ci.yml"] ++
    (match c.frontend_type with
     | .react => [fePath c ".github/workflows/ci.yml",
                  fePath c ".github/workflows/deploy.yml"]
     | .htmx => [])

/-- Relative path recorded by `_generate_render_config`. -/
def renderFiles : List String := ["render.yaml"]

/-- Relative paths recorded by `_generate_alembic`. -/
def alembicFiles (c : ProjectConfig) : List String :=
  [apiPath c "alembic.ini", apiPath c "alembic/env.py",
   apiPath c "alembic/script.py.mako", apiPath c "alembic/versions/.gitkeep"]

/-- Relative paths recorded by `_generate_auth`. -/
def authFiles (c : ProjectConfig) : List String :=
  [apiPath c "app/auth/__init__.py", apiPath c "app/auth/jwt.py",
   apiPath c "app/auth/routes.py"]

/-- The ordered list of relative paths a successful `generate` records in
`files_created`: common, docker, api, frontend (react or htmx), CI/CD (azure
or render), optional alembic, optional auth, `CLAUDE.md`, and the metadata
file written last. -/
def generateFileList (c : ProjectConfig) : List String :=
  commonFiles c ++ dockerFiles ++ apiFiles c ++
  (match c.frontend_type with
   | .react => reactFiles c
   | .htmx => htmxFiles c) ++
  (match c.project_type with
   | .work => azureFiles c
   | .personal => renderFiles) ++
  (if c.include_alembic then alembicFiles c else []) ++
  (if c.include_auth then authFiles c else []) ++
  ["CLAUDE.md", scaffoldMetadataFile]

/-- `ProjectGenerator._expected_files`, translated clause by clause.  It is an
independent enumeration in the source, kept independent here (it is not
defined via the `generateFileList` chunks above). -/
def expectedFiles (c : ProjectConfig) : List String :=
  [scaffoldMetadataFile, "README.md", "CLAUDE.md", ".env.example", "Makefile",
   "docker-compose.yml", "docker-compose.override.yml"] ++
  [apiPath c ".gitignore", apiPath c "Dockerfile", apiPath c "pyproject.toml",
   apiPath c "startup.sh",
   apiPath c "app/__init__.py", apiPath c "app/main.py", apiPath c "app/config.py",
   apiPath c "app/database.py", apiPath c "app/dependencies.py",
   apiPath c "app/models/__init__.py", apiPath c "app/models/base.py",
   apiPath c "app/models/user.py",
   apiPath c "app/schemas/__init__.py", apiPath c "app/schemas/common.py",
   apiPath c "app/schemas/user.py",
   apiPath c "app/routers/__init__.py", apiPath c "app/routers/health.py",
   apiPath c "app/routers/users.py",
   apiPath c "tests/__init__.py", apiPath c "tests/conftest.py",
   apiPath c "tests/test_health.py"] ++
  (if c.include_alembic then
    [apiPath c "alembic.ini", apiPath c "alembic/env.py",
     apiPath c "alembic/script.py.mako", apiPath c "alembic/versions/.gitkeep"]
   else []) ++
  (if c.include_sse then [apiPath c "app/routers/sse.py"] else []) ++
  (if c.include_auth then
    [apiPath c "app/auth/__init__.py", apiPath c "app/auth/jwt.py",
     apiPath c "app/auth/routes.py"]
   else []) ++
  (match c.frontend_type with
   | .react =>
     [fePath c ".gitignore", fePath c "Dockerfile", fePath c "package.json",
      fePath c "vite.config.ts", fePath c "tsconfig.json", fePath c "index.html",
      fePath c "src/main.tsx", fePath c "src/App.tsx"]
   | .htmx =>
     [apiPath c "app/templates/base.html", apiPath c "app/templates/index.html",
      apiPath c "app/routers/pages.py"]) ++
  (match c.project_type with
   | .work =>
     [apiPath c ".github/workflows/ci.yml"] ++
       (match c.frontend_type with
        | .react => [fePath c ".github/workflows/ci.yml",
                     fePath c ".github/workflows/deploy.yml"]
        | .htmx => [])
   | .personal => renderFiles)

/-! ### Filesystem writes -/

/-- Write a file: the path now exists (content is opaque, see the header). -/
def FS.writeFile (fs : FS) (p : String) : FS :=
  { fs with files := fs.files ++ [p] }

/-- Write (or overwrite) a manifest file: the path exists and `List.lookup`
now yields the new content (newest entry consed in front). -/
def FS.writeManifest (fs : FS) (p : String) (m : Manifest) : FS :=
  { fs with files := fs.files ++ [p], manifests := (p, m) :: fs.manifests }

/-- The manifest record `_write_metadata` serializes for a configuration
(`db_name` is stored already resolved; `components` starts empty). -/
def manifestOf (c : ProjectConfig) : Manifest :=
  { project_name := c.name
    project_type := c.project_type
    frontend_type := c.frontend_type
    description := c.description
    db_name := c.resolved_db_name
    include_auth := c.include_auth
    include_alembic := c.include_alembic
    api_port := c.api_port
    frontend_port := c.frontend_port
    use_current_dir := c.use_current_dir
    include_tdd := c.include_tdd
    include_redis := c.include_redis
    include_sse := c.include_sse
    components := [] }

/-- Absolute path of the metadata file for a project root. -/
def metaPathOf (root : String) : String := root ++ "/" ++ scaffoldMetadataFile

/-- The filesystem after the write phases of a successful `generate`: every
planned relative path becomes an existing file under the project root
(successive `_write`/`_write_empty` calls, collapsed), and `_write_metadata`
finally records the manifest content at `.scaffold.json`.  The metadata path
is already the last element of `generateFileList`, so only its parsed content
is added here. -/
def writeTree (c : ProjectConfig) (fs : FS) : FS :=
  { fs with
      files := fs.files ++ (generateFileList c).map (fun f => projectRoot c ++ "/" ++ f)
      manifests := (metaPathOf (projectRoot c), manifestOf c) :: fs.manifests }

/-! ### Results and errors -/

/-- A raised Python exception crossing the tool boundary. -/
inductive PyErr where
  | fileNotFound (message : String)
deriving DecidableEq, Repr

/-- Result of `ProjectGenerator.generate`.  On success the source also returns
`next_steps` strings from `_git_instructions`; they are user-facing prose
referenced by no claim and are omitted. -/
inductive GenResult where
  | error (message : String)
  | success (project_root : String) (files_created : Nat) (file_list : List String)
deriving DecidableEq, Repr

/-- Whether a generation result is the success variant. -/
def GenResult.isSuccess : GenResult → Bool
  | .success _ _ _ => true
  | .error _ => false

/-- The reported `project_root` of a result (empty for errors). -/
def GenResult.rootD : GenResult → String
  | .success r _ _ => r
  | .error _ => ""

/-- The `file_list` of a result (empty for errors). -/
def GenResult.fileListD : GenResult → List String
  | .success _ _ fl => fl
  | .error _ => []

/-- Result of `add_component`/`add_router`/`add_model` (the `files_created`
echo and `next_steps` prose are referenced by no claim and omitted). -/
inductive AddResult where
  | error (message : String)
  | success (component : String) (name : String)
deriving DecidableEq, Repr

/-- Result of `ProjectGenerator.validate`. -/
structure ValResult where
  status : String
  project_root : String
  total_expected : Nat
  missing_files : List String
  missing_count : Nat
deriving DecidableEq, Repr

/-- Result of `ProjectGenerator.info` (the Python key `structure` is a Lean
keyword, renamed `structureKind`). -/
structure InfoResult where
  project_root : String
  config : Manifest
  structureKind : String
deriving DecidableEq, Repr

/-! ### generate -/

/-- `ProjectGenerator.generate`: the three precondition checks, then the fixed
sequence of write phases (collapsed into `writeTree`), returning the summary.
In the `use_current_dir=false` branch the source calls
`self.project_root.mkdir(parents=True)` before writing. -/
def generate (c : ProjectConfig) (fs : FS) : FS × GenResult :=
  if c.use_current_dir then
    if !fs.pathExists (projectRoot c) then
      (fs, .error ("Directory does not exist: " ++ projectRoot c))
    else if fs.hasChild (projectRoot c) then
      (fs, .error ("Directory is not empty: " ++ projectRoot c ++
        ". use_current_dir requires an empty directory."))
    else
      (writeTree c fs,
       .success (projectRoot c) (generateFileList c).length (generateFileList c))
  else
    if fs.pathExists (projectRoot c) then
      (fs, .error ("Directory already exists: " ++ projectRoot c))
    else
      (writeTree c { fs with dirs := projectRoot c :: fs.dirs },
       .success (projectRoot c) (generateFileList c).length (generateFileList c))

/-! ### from_existing, validate, info -/

/-- `Path(p).parent`: the string before the last path separator (`"."` when
there is none, as for Python's relative single-component paths). -/
def parentDir (p : String) : String :=
  match p.data.reverse.dropWhile (fun ch => ch ≠ '/') with
  | [] => "."
  | _ :: rest => String.mk rest.reverse

/-- Rebuild a `ProjectConfig` from manifest content, as
`ProjectGenerator.from_existing` does after parsing the JSON: `output_dir` is
the project dir itself when `use_current_dir`, else its parent. -/
def configOfManifest (m : Manifest) (project_dir : String) : ProjectConfig :=
  { name := m.project_name
    project_type := m.project_type
    frontend_type := m.frontend_type
    description := m.description
    output_dir := if m.use_current_dir then project_dir else parentDir project_dir
    db_name := some m.db_name
    include_auth := m.include_auth
    include_alembic := m.include_alembic
    api_port := m.api_port
    frontend_port := m.frontend_port
    use_current_dir := m.use_current_dir
    include_tdd := m.include_tdd
    include_redis := m.include_redis
    include_sse := m.include_sse }

/-- `ProjectGenerator.from_existing`: raises `FileNotFoundError` (modelled as
`Except.error`) when the metadata file is absent; otherwise parses it and
builds the generator.  States produced by the operations of this file keep
`files` and `manifests` in sync, so a present metadata file has content. -/
def from_existing (project_dir : String) (fs : FS) :
    Except PyErr ProjectGenerator :=
  let meta_path := metaPathOf project_dir
  if fs.fileExists meta_path then
    match fs.manifests.lookup meta_path with
    | some m => .ok (mkGenerator (configOfManifest m project_dir))
    | none => .error (.fileNotFound ("No " ++ scaffoldMetadataFile ++
        " found in " ++ project_dir ++ ". Is this a scaffolded project?"))
  else
    .error (.fileNotFound ("No " ++ scaffoldMetadataFile ++ " found in " ++
      project_dir ++ ". Is this a scaffolded project?"))

/-- `ProjectGenerator.validate`: check each expected path for existence. -/
def validate (g : ProjectGenerator) (fs : FS) : ValResult :=
  let expected := expectedFiles g.config
  let missing := expected.filter
    (fun f => !fs.pathExists (g.project_root ++ "/" ++ f))
  { status := if missing.isEmpty then "valid" else "invalid"
    project_root := g.project_root
    total_expected := expected.length
    missing_files := missing
    missing_count := missing.length }

/-- `ProjectGenerator.info`: reads the metadata file (raises when absent, as
`read_text` would). -/
def info (g : ProjectGenerator) (fs : FS) : Except PyErr InfoResult :=
  match fs.manifests.lookup (metaPathOf g.project_root) with
  | some m =>
    .ok { project_root := g.project_root, config := m,
          structureKind := if g.config.is_multi_repo then "multi-repo" else "single-repo" }
  | none => .error (.fileNotFound (metaPathOf g.project_root))

/-! ### Extension engine (renderers/api.py) -/

/-- `renderers.api._update_metadata`: append a `{type, name}` record to the
manifest components when the metadata file exists (silently no-op otherwise). -/
def updateMetadata (fs : FS) (project_root : String)
    (component_type cname : String) : FS :=
  if fs.fileExists (metaPathOf project_root) then
    match fs.manifests.lookup (metaPathOf project_root) with
    | some m =>
      { fs with manifests :=
          (metaPathOf project_root,
           { m with components := m.components ++ [(component_type, cname)] })
            :: fs.manifests }
    | none => fs
  else fs

/-- Path of the generated model file for a (lowercased) component name. -/
def modelPath (g : ProjectGenerator) (n : String) : String :=
  apiRoot g ++ "/app/models/" ++ n ++ ".py"

/-- Path of the generated schema file for a (lowercased) component name. -/
def schemaPath (g : ProjectGenerator) (n : String) : String :=
  apiRoot g ++ "/app/schemas/" ++ n ++ ".py"

/-- Path of the generated router file for a (lowercased) component name. -/
def routerPath (g : ProjectGenerator) (n : String) : String :=
  apiRoot g ++ "/app/routers/" ++ n ++ ".py"

/-- `renderers.api.add_model`: write the model file (error if it already
exists), write the schema file unless present, append the manifest record. -/
def add_model (g : ProjectGenerator) (cc : ComponentConfig) (fs : FS) :
    FS × AddResult :=
  if fs.pathExists (modelPath g (strToLower cc.name)) then
    (fs, .error ("Model already exists: " ++ modelPath g (strToLower cc.name)))
  else
    let fs1 := fs.writeFile (modelPath g (strToLower cc.name))
    let fs2 :=
      if fs1.pathExists (schemaPath g (strToLower cc.name)) then fs1
      else fs1.writeFile (schemaPath g (strToLower cc.name))
    (updateMetadata fs2 g.project_root "db_model" (strToLower cc.name),
     .success "db_model" (strToLower cc.name))

/-- `renderers.api.add_router`: run the full `add_model` flow first when
fields were supplied (propagating its error), then write the router file
(error if present), write a trivial schema when no fields were supplied and
none exists, and append the manifest record.  The Python truthiness test
`if fields:` on `config.fields or {}` is the emptiness test on the
defaulted list. -/
def add_router (g : ProjectGenerator) (cc : ComponentConfig) (fs : FS) :
    FS × AddResult :=
  let step : (FS × AddResult) ⊕ FS :=
    if (cc.fields.getD []).isEmpty then .inr fs
    else
      match add_model g cc fs with
      | (fs1, .error msg) => .inl (fs1, AddResult.error msg)
      | (fs1, .success _ _) => .inr fs1
  match step with
  | .inl out => out
  | .inr fs1 =>
    if fs1.pathExists (routerPath g (strToLower cc.name)) then
      (fs1, .error ("Router already exists: " ++ routerPath g (strToLower cc.name)))
    else
      let fs2 := fs1.writeFile (routerPath g (strToLower cc.name))
      let fs3 :=
        if (cc.fields.getD []).isEmpty then
          if !fs2.pathExists (schemaPath g (strToLower cc.name)) then
            fs2.writeFile (schemaPath g (strToLower cc.name))
          else fs2
        else fs2
      (updateMetadata fs3 g.project_root "api_router" (strToLower cc.name),
       .success "api_router" (strToLower cc.name))

/-- `ProjectGenerator.add_component`: dispatch on the component kind; the
unimplemented kinds return a structured error (the Python message quotes the
kind with single quotation marks, elided here). -/
def add_component (g : ProjectGenerator) (cc : ComponentConfig) (fs : FS) :
    FS × AddResult :=
  match cc.component with
  | .api_router => add_router g cc fs
  | .db_model => add_model g cc fs
  | k => (fs, .error ("Component type " ++ k.str ++ " not yet implemented"))

/-! ### Server tools (server.py) -/

/-- Tool `create_project`: build the generator and generate. -/
def create_project (c : ProjectConfig) (fs : FS) : FS × GenResult :=
  generate c fs

/-- Tool `add_component`: `from_existing` (which may raise) then dispatch. -/
def add_component_tool (cc : ComponentConfig) (fs : FS) :
    Except PyErr (FS × AddResult) :=
  (from_existing cc.project_dir fs).map (fun g => add_component g cc fs)

/-- Tool `validate_project`: `from_existing` (which may raise) then validate. -/
def validate_project (project_dir : String) (fs : FS) :
    Except PyErr ValResult :=
  (from_existing project_dir fs).map (fun g => validate g fs)

/-- Tool `get_project_info`: `from_existing` (which may raise) then `info`. -/
def get_project_info (project_dir : String) (fs : FS) :
    Except PyErr InfoResult := do
  let g ← from_existing project_dir fs
  info g fs

/-- The components list of the manifest at a project root (empty when absent). -/
def manifestComponents (fs : FS) (root : String) : List (String × String) :=
  ((fs.manifests.lookup (metaPathOf root)).map Manifest.components).getD []

/-! ### Raw construction (pydantic validation of ProjectConfig) -/

/-- The raw field values handed to pydantic.  The two `Literal` fields arrive
as strings and are the only content pydantic constrains; the remaining fields
are shown typed (their pydantic validation is the type itself). -/
structure RawProjectConfig where
  name : String
  project_type : String
  frontend_type : String
  description : String := ""
  output_dir : String
  use_current_dir : Bool := false
  db_name : Option String := none
  include_auth : Bool := true
  include_alembic : Bool := true
  api_port : Int := 8000
  frontend_port : Int := 3000
  include_tdd : Bool := false
  include_redis : Bool := false
  include_sse : Bool := false
deriving DecidableEq, Repr

/-- Parse a `Literal["work", "personal"]` value. -/
def parseProjectType (s : String) : Option ProjectType :=
  if s = "work" then some .work
  else if s = "personal" then some .personal
  else none

/-- Parse a `Literal["react", "htmx"]` value. -/
def parseFrontendType (s : String) : Option FrontendType :=
  if s = "react" then some .react
  else if s = "htmx" then some .htmx
  else none

/-- Pydantic construction of `models.ProjectConfig`: the `Literal` fields must
be one of their allowed strings; every other field (including `name`) carries
no constraint beyond its type. -/
def ProjectConfig.fromRaw (r : RawProjectConfig) : Except String ProjectConfig :=
  match parseProjectType r.project_type, parseFrontendType r.frontend_type with
  | some pt, some ft =>
    .ok { name := r.name, project_type := pt, frontend_type := ft,
          description := r.description, output_dir := r.output_dir,
          use_current_dir := r.use_current_dir, db_name := r.db_name,
          include_auth := r.include_auth, include_alembic := r.include_alembic,
          api_port := r.api_port, frontend_port := r.frontend_port,
          include_tdd := r.include_tdd, include_redis := r.include_redis,
          include_sse := r.include_sse }
  | none, _ => .error "validation error: project_type"
  | _, none => .error "validation error: frontend_type"

/-! ### Helper lemmas -/

theorem strIsPre_append (a b : String) : strIsPre a (a ++ b) = true := by
  rw [strIsPre, List.isPrefixOf_iff_prefix]
  rw [show (a ++ b).data = a.data ++ b.data by simp]
  exact List.prefix_append a.data b.data

theorem dropWhile_append_of_forall {p : Char → Bool} (l₁ l₂ : List Char)
    (h : ∀ c ∈ l₁, p c = true) :
    (l₁ ++ l₂).dropWhile p = l₂.dropWhile p := by
  induction l₁ with
  | nil => simp
  | cons a t ih =>
    have ha : p a = true := h a (by simp)
    simp only [List.cons_append, List.dropWhile_cons, ha, if_true]
    exact ih (fun c hc => h c (by simp [hc]))

/-- `Path(a + "/" + b).parent = a` when `b` holds no separator. -/
theorem parentDir_append (a b : String) (hsl : '/' ∉ b.data) :
    parentDir (a ++ "/" ++ b) = a := by
  have hdata : (a ++ "/" ++ b).data = a.data ++ '/' :: b.data := by
    simp [String.data_append]
  rw [parentDir, hdata]
  rw [show (a.data ++ '/' :: b.data).reverse = b.data.reverse ++ '/' :: a.data.reverse by
    simp]
  rw [dropWhile_append_of_forall _ _ (fun c hc => by
    simp only [decide_eq_true_eq]
    intro hcontra
    exact hsl (by simpa [hcontra] using List.mem_reverse.mp hc))]
  rw [List.dropWhile_cons]
  simp

theorem mem_gfl_common {c : ProjectConfig} {x : String}
    (h : x ∈ commonFiles c) : x ∈ generateFileList c := by
  simp only [generateFileList, List.mem_append]
  tauto

theorem mem_gfl_docker {c : ProjectConfig} {x : String}
    (h : x ∈ dockerFiles) : x ∈ generateFileList c := by
  simp only [generateFileList, List.mem_append]
  tauto

theorem mem_gfl_api {c : ProjectConfig} {x : String}
    (h : x ∈ apiFiles c) : x ∈ generateFileList c := by
  simp only [generateFileList, List.mem_append]
  tauto

theorem mem_gfl_react {c : ProjectConfig} {x : String}
    (hft : c.frontend_type = .react) (h : x ∈ reactFiles c) :
    x ∈ generateFileList c := by
  simp only [generateFileList, hft, List.mem_append]
  tauto

theorem mem_gfl_htmx {c : ProjectConfig} {x : String}
    (hft : c.frontend_type = .htmx) (h : x ∈ htmxFiles c) :
    x ∈ generateFileList c := by
  simp only [generateFileList, hft, List.mem_append]
  tauto

theorem mem_gfl_azure {c : ProjectConfig} {x : String}
    (hpt : c.project_type = .work) (h : x ∈ azureFiles c) :
    x ∈ generateFileList c := by
  simp only [generateFileList, hpt, List.mem_append]
  tauto

theorem mem_gfl_render {c : ProjectConfig} {x : String}
    (hpt : c.project_type = .personal) (h : x ∈ renderFiles) :
    x ∈ generateFileList c := by
  simp only [generateFileList, hpt, List.mem_append]
  tauto

theorem mem_gfl_alembic {c : ProjectConfig} {x : String}
    (hal : c.include_alembic = true) (h : x ∈ alembicFiles c) :
    x ∈ generateFileList c := by
  simp only [generateFileList, hal, if_true, List.mem_append]
  tauto

theorem mem_gfl_auth {c : ProjectConfig} {x : String}
    (hau : c.include_auth = true) (h : x ∈ authFiles c) :
    x ∈ generateFileList c := by
  simp only [generateFileList, hau, if_true, List.mem_append]
  tauto

theorem mem_gfl_tail {c : ProjectConfig} {x : String}
    (h : x ∈ ["CLAUDE.md", scaffoldMetadataFile]) : x ∈ generateFileList c := by
  simp only [generateFileList, List.mem_append]
  tauto

/-- The validator's expected list is contained in generation's file plan. -/
theorem expectedFiles_subset (c : ProjectConfig) :
    ∀ x ∈ expectedFiles c, x ∈ generateFileList c := by
  intro x hx
  simp only [expectedFiles, List.mem_append] at hx
  rcases hx with ((((((hx | hx) | hx) | hx) | hx) | hx) | hx)
  · -- the seven unconditional workspace files
    fin_cases hx
    · exact mem_gfl_tail (by simp)
    · exact mem_gfl_common (by simp [commonFiles])
    · exact mem_gfl_tail (by simp)
    · exact mem_gfl_common (by simp [commonFiles])
    · exact mem_gfl_common (by simp [commonFiles])
    · exact mem_gfl_docker (by simp [dockerFiles])
    · exact mem_gfl_docker (by simp [dockerFiles])
  · -- the API tree files
    fin_cases hx
    · -- .gitignore sits in the per-repo position chosen by _generate_common
      refine mem_gfl_common ?_
      by_cases hm : c.is_multi_repo
      · simp [commonFiles, hm]
      · simp only [Bool.not_eq_true] at hm
        simp [commonFiles, hm, apiPath]
    all_goals exact mem_gfl_api (by simp [apiFiles])
  · -- alembic files
    by_cases hal : c.include_alembic
    · simp only [hal, if_true] at hx
      fin_cases hx <;> exact mem_gfl_alembic hal (by simp [alembicFiles])
    · simp only [Bool.not_eq_true] at hal
      simp [hal] at hx
  · -- the SSE router
    by_cases hsse : c.include_sse
    · simp only [hsse, if_true] at hx
      fin_cases hx
      exact mem_gfl_api (by simp [apiFiles, hsse])
    · simp only [Bool.not_eq_true] at hsse
      simp [hsse] at hx
  · -- auth files
    by_cases hau : c.include_auth
    · simp only [hau, if_true] at hx
      fin_cases hx <;> exact mem_gfl_auth hau (by simp [authFiles])
    · simp only [Bool.not_eq_true] at hau
      simp [hau] at hx
  · -- frontend files
    cases hft : c.frontend_type with
    | react =>
      simp only [hft] at hx
      have hm : c.is_multi_repo = true := by simp [ProjectConfig.is_multi_repo, hft]
      fin_cases hx
      · exact mem_gfl_common (by simp [commonFiles, hm])
      all_goals exact mem_gfl_react hft (by simp [reactFiles])
    | htmx =>
      simp only [hft] at hx
      fin_cases hx <;> exact mem_gfl_htmx hft (by simp [htmxFiles])
  · -- CI/CD files
    cases hpt : c.project_type with
    | work =>
      simp only [hpt, List.mem_append] at hx
      rcases hx with hx | hx
      · fin_cases hx
        exact mem_gfl_azure hpt (by simp [azureFiles])
      · cases hft : c.frontend_type with
        | react =>
          simp only [hft] at hx
          fin_cases hx <;> exact mem_gfl_azure hpt (by simp [azureFiles, hft])
        | htmx =>
          simp only [hft] at hx
          simp at hx
    | personal =>
      simp only [hpt] at hx
      exact mem_gfl_render hpt hx

theorem scaffoldMetadataFile_mem_gfl (c : ProjectConfig) :
    scaffoldMetadataFile ∈ generateFileList c :=
  mem_gfl_tail (by simp)

/-- A successful `generate` leaves exactly the planned files and the fresh
manifest on top of the starting state. -/
theorem generate_success_fs {c : ProjectConfig} {fs fs' : FS} {r : GenResult}
    (h : generate c fs = (fs', r)) (hs : r.isSuccess = true) :
    fs'.files = fs.files ++ (generateFileList c).map (fun f => projectRoot c ++ "/" ++ f) ∧
    fs'.manifests = (metaPathOf (projectRoot c), manifestOf c) :: fs.manifests := by
  unfold generate at h
  split at h
  · split at h
    · rw [Prod.mk.injEq] at h
      obtain ⟨h1, h2⟩ := h
      subst h1; subst h2
      simp [GenResult.isSuccess] at hs
    · split at h
      · rw [Prod.mk.injEq] at h
        obtain ⟨h1, h2⟩ := h
        subst h1; subst h2
        simp [GenResult.isSuccess] at hs
      · rw [Prod.mk.injEq] at h
        obtain ⟨h1, h2⟩ := h
        subst h1
        exact ⟨rfl, rfl⟩
  · split at h
    · rw [Prod.mk.injEq] at h
      obtain ⟨h1, h2⟩ := h
      subst h1; subst h2
      simp [GenResult.isSuccess] at hs
    · rw [Prod.mk.injEq] at h
      obtain ⟨h1, h2⟩ := h
      subst h1
      exact ⟨rfl, rfl⟩

/-- A successful `generate` reports the file plan as its recorded list. -/
theorem generate_success_result {c : ProjectConfig} {fs fs' : FS} {r : GenResult}
    (h : generate c fs = (fs', r)) (hs : r.isSuccess = true) :
    r = .success (projectRoot c) (generateFileList c).length (generateFileList c) := by
  unfold generate at h
  split at h
  · split at h
    · rw [Prod.mk.injEq] at h
      obtain ⟨h1, h2⟩ := h
      subst h2
      simp [GenResult.isSuccess] at hs
    · split at h
      · rw [Prod.mk.injEq] at h
        obtain ⟨h1, h2⟩ := h
        subst h2
        simp [GenResult.isSuccess] at hs
      · rw [Prod.mk.injEq] at h
        exact h.2.symm
  · split at h
    · rw [Prod.mk.injEq] at h
      obtain ⟨h1, h2⟩ := h
      subst h2
      simp [GenResult.isSuccess] at hs
    · rw [Prod.mk.injEq] at h
      exact h.2.symm

/-- The configuration reconstructed from a fresh manifest re-derives the same
expected-file list (it preserves every field the validator branches on). -/
theorem expectedFiles_configOfManifest (c : ProjectConfig) (d : String) :
    expectedFiles (configOfManifest (manifestOf c) d) = expectedFiles c := rfl

/-- Reconstructing the generator at the produced project root recomputes that
same root, provided the project name holds no path separator
(`use_current_dir=false` stores the parent directory and re-appends the name). -/
theorem configOfManifest_root (c : ProjectConfig) (hsl : '/' ∉ c.name.data) :
    projectRoot (configOfManifest (manifestOf c) (projectRoot c)) = projectRoot c := by
  by_cases hcd : c.use_current_dir
  · simp [projectRoot, configOfManifest, manifestOf, hcd]
  · simp only [Bool.not_eq_true] at hcd
    simp only [projectRoot, configOfManifest, manifestOf, hcd, Bool.false_eq_true,
      if_false]
    rw [parentDir_append c.output_dir c.name hsl]

/-- `from_existing` at the produced root finds the fresh manifest. -/
theorem from_existing_writeTree (c : ProjectConfig) (fs0 : FS) :
    from_existing (projectRoot c) (writeTree c fs0) =
      .ok (mkGenerator (configOfManifest (manifestOf c) (projectRoot c))) := by
  have hmem : metaPathOf (projectRoot c) ∈ (writeTree c fs0).files := by
    simp only [writeTree, List.mem_append]
    right
    refine List.mem_map.mpr ⟨scaffoldMetadataFile, scaffoldMetadataFile_mem_gfl c, rfl⟩
  have hex : (writeTree c fs0).fileExists (metaPathOf (projectRoot c)) = true := by
    simp [FS.fileExists, hmem]
  have hlk : (writeTree c fs0).manifests.lookup (metaPathOf (projectRoot c)) =
      some (manifestOf c) := by
    simp [writeTree, List.lookup]
  rw [from_existing, hex]
  simp only [if_true]
  rw [hlk]

/-! ### Concrete fixtures (the spec scenarios) -/

/-- Scenario A configuration: `{name: acme, personal, htmx, outputDir: /tmp/w}`. -/
def cA : ProjectConfig :=
  { name := "acme", project_type := .personal, frontend_type := .htmx,
    output_dir := "/tmp/w" }

/-- Scenario B configuration: same as Scenario A but with a react frontend. -/
def cB : ProjectConfig :=
  { name := "acme", project_type := .personal, frontend_type := .react,
    output_dir := "/tmp/w" }

/-- The filesystem after generating Scenario A into an empty filesystem. -/
def fsA : FS := (create_project cA emptyFS).1

/-- Scenario C component request: an `api_router` named `Widget` with two
typed fields, aimed at the Scenario A project root. -/
def ccC : ComponentConfig :=
  ⟨"/tmp/w/acme", .api_router, "Widget", some [("title", "string"), ("price", "float")]⟩

/-- The outcome of the Scenario C extension call. -/
def resC : Except PyErr (FS × AddResult) := add_component_tool ccC fsA

/-- The filesystem after the Scenario C extension call. -/
def fsC : FS :=
  match resC with
  | .ok p => p.1
  | .error _ => emptyFS

/-! ### Claims -/

/-- C1 (amended): when the project directory contains no `.scaffold.json`,
`validate_project`, `get_project_info` and `add_component` each propagate the
`FileNotFoundError` raised by `ProjectGenerator.from_existing` (modelled as
`Except.error`), whose message identifies the directory as not a scaffolded
project; none of them returns a structured `{status: error}` value. -/
theorem claim_C1 (dir : String) (fs : FS) (cc : ComponentConfig)
    (hcc : cc.project_dir = dir)
    (habsent : fs.fileExists (metaPathOf dir) = false) :
    validate_project dir fs = .error (.fileNotFound
      ("No " ++ scaffoldMetadataFile ++ " found in " ++ dir ++
       ". Is this a scaffolded project?")) ∧
    get_project_info dir fs = .error (.fileNotFound
      ("No " ++ scaffoldMetadataFile ++ " found in " ++ dir ++
       ". Is this a scaffolded project?")) ∧
    add_component_tool cc fs = .error (.fileNotFound
      ("No " ++ scaffoldMetadataFile ++ " found in " ++ dir ++
       ". Is this a scaffolded project?")) := by
  subst hcc
  have hfe : from_existing cc.project_dir fs = .error (.fileNotFound
      ("No " ++ scaffoldMetadataFile ++ " found in " ++ cc.project_dir ++
       ". Is this a scaffolded project?")) := by
    rw [from_existing, habsent]
    simp
  refine ⟨?_, ?_, ?_⟩
  · rw [validate_project, hfe]; rfl
  · rw [get_project_info]
    rw [show (do
        let g ← from_existing cc.project_dir fs
        info g fs : Except PyErr InfoResult) =
      (from_existing cc.project_dir fs).bind (fun g => info g fs) from rfl]
    rw [hfe]
    rfl
  · rw [add_component_tool, hfe]; rfl

/-- C1 counterexample: at the concrete empty filesystem and directory `/p`,
all three operations evaluate to a raised `FileNotFoundError`, not to an
`ok` result carrying `{status: error}` — refuting the claim as stated. -/
theorem claim_C1_counterexample :
    validate_project "/p" emptyFS = .error (.fileNotFound
      "No .scaffold.json found in /p. Is this a scaffolded project?") ∧
    get_project_info "/p" emptyFS = .error (.fileNotFound
      "No .scaffold.json found in /p. Is this a scaffolded project?") ∧
    add_component_tool ⟨"/p", .db_model, "widget", none⟩ emptyFS =
      .error (.fileNotFound
        "No .scaffold.json found in /p. Is this a scaffolded project?") := by
  decide

/-- C1 witness: the amended statement instantiated at the directory `/data/p`. -/
theorem claim_C1_witness :
    validate_project "/data/p" emptyFS = .error (.fileNotFound
      ("No " ++ scaffoldMetadataFile ++ " found in " ++ "/data/p" ++
       ". Is this a scaffolded project?")) ∧
    get_project_info "/data/p" emptyFS = .error (.fileNotFound
      ("No " ++ scaffoldMetadataFile ++ " found in " ++ "/data/p" ++
       ". Is this a scaffolded project?")) ∧
    add_component_tool ⟨"/data/p", .db_model, "widget", none⟩ emptyFS =
      .error (.fileNotFound
        ("No " ++ scaffoldMetadataFile ++ " found in " ++ "/data/p" ++
         ". Is this a scaffolded project?")) :=
  claim_C1 "/data/p" emptyFS ⟨"/data/p", .db_model, "widget", none⟩ rfl (by decide)

/-- C4: `generate` fails with a structured error exactly in the three stated
precondition cases — current-dir target missing, current-dir target
non-empty, and fresh target already existing — using the stated messages, and
every error case leaves the filesystem (files and directories) untouched. -/
theorem claim_C4 (c : ProjectConfig) (fs : FS) :
    (c.use_current_dir = true → fs.pathExists (projectRoot c) = false →
      generate c fs = (fs, .error ("Directory does not exist: " ++ projectRoot c))) ∧
    (c.use_current_dir = true → fs.pathExists (projectRoot c) = true →
      fs.hasChild (projectRoot c) = true →
      generate c fs = (fs, .error ("Directory is not empty: " ++ projectRoot c ++
        ". use_current_dir requires an empty directory."))) ∧
    (c.use_current_dir = false → fs.pathExists (projectRoot c) = true →
      generate c fs = (fs, .error ("Directory already exists: " ++ projectRoot c))) ∧
    (∀ fs' msg, generate c fs = (fs', .error msg) → fs' = fs) ∧
    (((generate c fs).2).isSuccess = false ↔
      (c.use_current_dir = true ∧ (fs.pathExists (projectRoot c) = false ∨
        fs.hasChild (projectRoot c) = true)) ∨
      (c.use_current_dir = false ∧ fs.pathExists (projectRoot c) = true)) := by
  refine ⟨?_, ?_, ?_, ?_, ?_⟩
  · intro hcd hpe
    simp [generate, hcd, hpe]
  · intro hcd hpe hch
    simp [generate, hcd, hpe, hch]
  · intro hcd hpe
    simp [generate, hcd, hpe]
  · intro fs' msg h
    unfold generate at h
    split at h
    · split at h
      · exact (Prod.mk.injEq .. ▸ h).1.symm
      · split at h
        · exact (Prod.mk.injEq .. ▸ h).1.symm
        · exact absurd (Prod.mk.injEq .. ▸ h).2 (by simp)
    · split at h
      · exact (Prod.mk.injEq .. ▸ h).1.symm
      · exact absurd (Prod.mk.injEq .. ▸ h).2 (by simp)
  · cases hcd : c.use_current_dir <;>
      cases hpe : fs.pathExists (projectRoot c) <;>
      cases hch : fs.hasChild (projectRoot c) <;>
      simp [generate, hcd, hpe, hch, GenResult.isSuccess]

/-- Scenario-D style fixture: a current-dir target that already holds a file. -/
def fsD : FS := ⟨["/tmp/w/occupied/old.txt"], ["/tmp/w/occupied"], []⟩

/-- Configuration pointing `use_current_dir` at the occupied directory. -/
def cD : ProjectConfig :=
  { name := "acme", project_type := .personal, frontend_type := .htmx,
    output_dir := "/tmp/w/occupied", use_current_dir := true }

/-- C4 witness: the non-empty-directory case at a concrete occupied target
returns the structured error and leaves the filesystem unchanged. -/
theorem claim_C4_witness :
    generate cD fsD = (fsD, .error ("Directory is not empty: " ++ projectRoot cD ++
      ". use_current_dir requires an empty directory.")) :=
  (claim_C4 cD fsD).2.1 rfl (by decide) (by decide)

/-- C3 (amended): for every configuration, the validator's expected-file list
is a subset of the list of relative paths a successful `generate` records —
not an equal set: generation records frontend files (HTMX partials and static
assets; several React build files) that `_expected_files` omits. -/
theorem claim_C3 (c : ProjectConfig) :
    (∀ x ∈ expectedFiles c, x ∈ generateFileList c) ∧
    (∀ fs : FS, ((generate c fs).2).isSuccess = true →
      ((generate c fs).2).fileListD = generateFileList c) := by
  refine ⟨expectedFiles_subset c, ?_⟩
  intro fs hs
  rw [generate_success_result (Prod.mk.eta (p := generate c fs)).symm hs]
  rfl

/-- C3 counterexample: for the Scenario A configuration, generation records
the HTMX partial `app/templates/partials/user_list.html` but the validator's
expected list omits it, so the two path sets are not equal. -/
theorem claim_C3_counterexample :
    "app/templates/partials/user_list.html" ∈ ((create_project cA emptyFS).2).fileListD ∧
    "app/templates/partials/user_list.html" ∉ expectedFiles cA := by
  decide

/-- C3 witness: the amended statement instantiated at the Scenario A
configuration and the empty filesystem. -/
theorem claim_C3_witness :
    "render.yaml" ∈ generateFileList cA ∧
    ((generate cA emptyFS).2).fileListD = generateFileList cA :=
  ⟨(claim_C3 cA).1 "render.yaml" (by decide), (claim_C3 cA).2 emptyFS (by decide)⟩

/-- C9 (amended): pydantic construction of `ProjectConfiguration` validates
only the two `Literal` enum fields; `name` carries no constraint beyond being
a string, so construction succeeds for every name — the empty name included —
whenever the enum fields are valid. -/
theorem claim_C9 (r : RawProjectConfig)
    (hpt : r.project_type = "work" ∨ r.project_type = "personal")
    (hft : r.frontend_type = "react" ∨ r.frontend_type = "htmx") :
    ∃ c, ProjectConfig.fromRaw r = .ok c ∧ c.name = r.name := by
  have key : ∀ pt ft, parseProjectType r.project_type = some pt →
      parseFrontendType r.frontend_type = some ft →
      ∃ c, ProjectConfig.fromRaw r = .ok c ∧ c.name = r.name := by
    intro pt ft h1 h2
    simp only [ProjectConfig.fromRaw, h1, h2]
    exact ⟨_, rfl, rfl⟩
  rcases hpt with hpt | hpt <;> rcases hft with hft | hft
  · exact key .work .react (by rw [hpt]; rfl) (by rw [hft]; rfl)
  · exact key .work .htmx (by rw [hpt]; rfl) (by rw [hft]; rfl)
  · exact key .personal .react (by rw [hpt]; rfl) (by rw [hft]; rfl)
  · exact key .personal .htmx (by rw [hpt]; rfl) (by rw [hft]; rfl)

/-- C9 counterexample: constructing a configuration with an empty name is
accepted, not rejected. -/
theorem claim_C9_counterexample :
    ProjectConfig.fromRaw
        { name := "", project_type := "personal", frontend_type := "htmx",
          output_dir := "/tmp/w" } =
      .ok { name := "", project_type := .personal, frontend_type := .htmx,
            output_dir := "/tmp/w" } := by
  decide

/-- C9 witness: the amended statement instantiated at an empty-name raw
configuration with valid enum fields. -/
theorem claim_C9_witness :
    ∃ c, ProjectConfig.fromRaw
        { name := "", project_type := "work", frontend_type := "react",
          output_dir := "/o" } = .ok c ∧
      c.name = "" :=
  claim_C9 _ (Or.inl rfl) (Or.inl rfl)

/-- C7: generating the Scenario A configuration (personal, htmx, not in the
current dir) creates the project root at `outputDir/name`, records
`render.yaml` at the root, records `app/templates/base.html` and
`app/routers/pages.py`, and records no path under `.github/workflows`. -/
theorem claim_C7 :
    ((create_project cA emptyFS).2).isSuccess = true ∧
    ((create_project cA emptyFS).2).rootD = cA.output_dir ++ "/" ++ cA.name ∧
    ((create_project cA emptyFS).1).dirs.contains "/tmp/w/acme" = true ∧
    "render.yaml" ∈ ((create_project cA emptyFS).2).fileListD ∧
    "app/templates/base.html" ∈ ((create_project cA emptyFS).2).fileListD ∧
    "app/routers/pages.py" ∈ ((create_project cA emptyFS).2).fileListD ∧
    ((create_project cA emptyFS).2).fileListD.all
      (fun f => !strHasSub ".github/workflows" f) = true := by
  decide

/-- C6: adding an `api_router` named `Widget` with two fields to the freshly
generated Scenario A project creates the lowercased model, schema and router
files and appends exactly the two manifest records `(db_model, widget)` then
`(api_router, widget)`, in that order. -/
theorem claim_C6 :
    resC.map Prod.snd = .ok (.success "api_router" "widget") ∧
    fsC.fileExists "/tmp/w/acme/app/models/widget.py" = true ∧
    fsC.fileExists "/tmp/w/acme/app/schemas/widget.py" = true ∧
    fsC.fileExists "/tmp/w/acme/app/routers/widget.py" = true ∧
    manifestComponents fsC "/tmp/w/acme" =
      [("db_model", "widget"), ("api_router", "widget")] := by
  decide

/-- C2: whenever `generate` succeeds (any project kind, frontend kind,
current-dir mode and feature-flag combination; the name is a path-separator
free identifier as the data model prescribes), running the `validate_project`
tool on the produced root immediately afterward — which reconstructs the
configuration from the written manifest — reports zero missing files. -/
theorem claim_C2 (c : ProjectConfig) (fs : FS)
    (hsl : '/' ∉ c.name.data)
    (hs : ((generate c fs).2).isSuccess = true) :
    ∃ v, validate_project (projectRoot c) ((generate c fs).1) = .ok v ∧
      v.missing_count = 0 ∧ v.missing_files = [] ∧ v.status = "valid" := by
  obtain ⟨hfiles, hman⟩ :=
    generate_success_fs (Prod.mk.eta (p := generate c fs)).symm hs
  have hex : ((generate c fs).1).fileExists (metaPathOf (projectRoot c)) = true := by
    have hmem : metaPathOf (projectRoot c) ∈ ((generate c fs).1).files := by
      rw [hfiles]
      exact List.mem_append_right _
        (List.mem_map.mpr ⟨scaffoldMetadataFile, scaffoldMetadataFile_mem_gfl c, rfl⟩)
    simp [FS.fileExists, hmem]
  have hlk : ((generate c fs).1).manifests.lookup (metaPathOf (projectRoot c)) =
      some (manifestOf c) := by
    rw [hman]
    simp [List.lookup]
  have hfe : from_existing (projectRoot c) ((generate c fs).1) =
      .ok (mkGenerator (configOfManifest (manifestOf c) (projectRoot c))) := by
    rw [from_existing, hex]
    simp only [if_true]
    rw [hlk]
  have hroot : (mkGenerator (configOfManifest (manifestOf c) (projectRoot c))).project_root =
      projectRoot c := by
    simpa [mkGenerator] using configOfManifest_root c hsl
  have hexp : expectedFiles
      (mkGenerator (configOfManifest (manifestOf c) (projectRoot c))).config =
      expectedFiles c := rfl
  have hmissing : (expectedFiles
      (mkGenerator (configOfManifest (manifestOf c) (projectRoot c))).config).filter
        (fun f => !((generate c fs).1).pathExists
          ((mkGenerator (configOfManifest (manifestOf c) (projectRoot c))).project_root
            ++ "/" ++ f)) = [] := by
    simp only [hexp, hroot]
    rw [List.filter_eq_nil_iff]
    intro f hf
    have hmem : projectRoot c ++ "/" ++ f ∈ ((generate c fs).1).files := by
      rw [hfiles]
      exact List.mem_append_right _
        (List.mem_map.mpr ⟨f, expectedFiles_subset c f hf, rfl⟩)
    simp [FS.pathExists, hmem]
  refine ⟨validate (mkGenerator (configOfManifest (manifestOf c) (projectRoot c)))
      ((generate c fs).1), ?_, ?_, ?_, ?_⟩
  · rw [validate_project, hfe]
    rfl
  · simp [validate, hmissing]
  · simp [validate, hmissing]
  · simp [validate, hmissing]

/-- A small fixture for the C2 witness: a work/react configuration with the
SSE flag on, generated into the empty filesystem. -/
def cW : ProjectConfig :=
  { name := "acme", project_type := .work, frontend_type := .react,
    output_dir := "/srv", include_sse := true }

/-- C2 witness: the statement instantiated at a concrete configuration. -/
theorem claim_C2_witness :
    ∃ v, validate_project (projectRoot cW) ((generate cW emptyFS).1) = .ok v ∧
      v.missing_count = 0 ∧ v.missing_files = [] ∧ v.status = "valid" :=
  claim_C2 cW emptyFS (by decide) (by decide)

/-! ### Extension-engine lemmas -/

theorem fileExists_writeFile {fs : FS} {p : String} (q : String)
    (h : fs.fileExists p = true) : (fs.writeFile q).fileExists p = true := by
  simp [FS.fileExists, FS.writeFile] at h ⊢
  tauto

theorem fileExists_writeFile_self (fs : FS) (p : String) :
    (fs.writeFile p).fileExists p = true := by
  simp [FS.fileExists, FS.writeFile]

theorem pathExists_writeFile {fs : FS} {p : String} (q : String)
    (h : fs.pathExists p = true) : (fs.writeFile q).pathExists p = true := by
  simp [FS.pathExists, FS.writeFile] at h ⊢
  tauto

theorem pathExists_writeFile_self (fs : FS) (p : String) :
    (fs.writeFile p).pathExists p = true := by
  simp [FS.pathExists, FS.writeFile]

theorem pathExists_of_mem_files {fs : FS} {p : String} (h : p ∈ fs.files) :
    fs.pathExists p = true := by
  simp [FS.pathExists, h]

theorem updateMetadata_files (fs : FS) (root t n : String) :
    (updateMetadata fs root t n).files = fs.files := by
  rw [updateMetadata]
  split
  · split <;> rfl
  · rfl

theorem updateMetadata_dirs (fs : FS) (root t n : String) :
    (updateMetadata fs root t n).dirs = fs.dirs := by
  rw [updateMetadata]
  split
  · split <;> rfl
  · rfl

theorem updateMetadata_pathExists (fs : FS) (root t n p : String) :
    (updateMetadata fs root t n).pathExists p = fs.pathExists p := by
  rw [FS.pathExists, FS.pathExists, updateMetadata_files, updateMetadata_dirs]

theorem updateMetadata_eq {fs : FS} {root : String} {m : Manifest} (t n : String)
    (hmeta : fs.fileExists (metaPathOf root) = true)
    (hm : fs.manifests.lookup (metaPathOf root) = some m) :
    updateMetadata fs root t n =
      { fs with manifests := (metaPathOf root,
          { m with components := m.components ++ [(t, n)] }) :: fs.manifests } := by
  simp only [updateMetadata, hmeta, if_true, hm]

/-- `from_existing` succeeds exactly by finding and parsing the manifest. -/
theorem from_existing_ok_inv {dir : String} {fs : FS} {g : ProjectGenerator}
    (h : from_existing dir fs = .ok g) :
    ∃ m, fs.fileExists (metaPathOf dir) = true ∧
      fs.manifests.lookup (metaPathOf dir) = some m ∧
      g = mkGenerator (configOfManifest m dir) := by
  rw [from_existing] at h
  split at h
  · split at h
    · exact ⟨_, by assumption, by assumption, (Except.ok.injEq .. ▸ h).symm⟩
    · cases h
  · cases h

/-- The effect of a fresh `add_model` call: success result, the model path
written, the schema path present afterwards (written unless it already
existed), the manifest extended by the `(db_model, name)` record, directories
untouched. -/
theorem add_model_spec {g : ProjectGenerator} {cc : ComponentConfig} {fs : FS}
    {m : Manifest}
    (hmodel : fs.pathExists (modelPath g (strToLower cc.name)) = false)
    (hmeta : fs.fileExists (metaPathOf g.project_root) = true)
    (hm : fs.manifests.lookup (metaPathOf g.project_root) = some m) :
    (add_model g cc fs).2 = .success "db_model" (strToLower cc.name) ∧
    (add_model g cc fs).1.files =
      fs.files ++ [modelPath g (strToLower cc.name)] ++
        (if (fs.writeFile (modelPath g (strToLower cc.name))).pathExists
            (schemaPath g (strToLower cc.name)) = true then []
         else [schemaPath g (strToLower cc.name)]) ∧
    (add_model g cc fs).1.dirs = fs.dirs ∧
    (add_model g cc fs).1.manifests =
      (metaPathOf g.project_root,
        { m with components := m.components ++ [("db_model", strToLower cc.name)] })
        :: fs.manifests ∧
    (add_model g cc fs).1.pathExists (schemaPath g (strToLower cc.name)) = true := by
  have hmeta1 : (fs.writeFile (modelPath g (strToLower cc.name))).fileExists
      (metaPathOf g.project_root) = true := fileExists_writeFile _ hmeta
  have hm1 : (fs.writeFile (modelPath g (strToLower cc.name))).manifests.lookup
      (metaPathOf g.project_root) = some m := hm
  by_cases hs : (fs.writeFile (modelPath g (strToLower cc.name))).pathExists
      (schemaPath g (strToLower cc.name)) = true
  · have e : add_model g cc fs =
        (updateMetadata (fs.writeFile (modelPath g (strToLower cc.name)))
          g.project_root "db_model" (strToLower cc.name),
         .success "db_model" (strToLower cc.name)) := by
      simp [add_model, hmodel, hs]
    have e1 : (add_model g cc fs).1 =
        updateMetadata (fs.writeFile (modelPath g (strToLower cc.name)))
          g.project_root "db_model" (strToLower cc.name) := by rw [e]
    have e2 : (add_model g cc fs).2 = .success "db_model" (strToLower cc.name) := by
      rw [e]
    refine ⟨e2, ?_, ?_, ?_, ?_⟩
    · rw [e1, updateMetadata_files, if_pos hs, List.append_nil]
      rfl
    · rw [e1, updateMetadata_dirs]
      rfl
    · rw [e1, updateMetadata_eq "db_model" (strToLower cc.name) hmeta1 hm1]
      rfl
    · rw [e1, updateMetadata_pathExists]
      exact hs
  · have e : add_model g cc fs =
        (updateMetadata ((fs.writeFile (modelPath g (strToLower cc.name))).writeFile
            (schemaPath g (strToLower cc.name)))
          g.project_root "db_model" (strToLower cc.name),
         .success "db_model" (strToLower cc.name)) := by
      simp [add_model, hmodel, hs]
    have hmeta2 : ((fs.writeFile (modelPath g (strToLower cc.name))).writeFile
        (schemaPath g (strToLower cc.name))).fileExists
        (metaPathOf g.project_root) = true := fileExists_writeFile _ hmeta1
    have hm2 : ((fs.writeFile (modelPath g (strToLower cc.name))).writeFile
        (schemaPath g (strToLower cc.name))).manifests.lookup
        (metaPathOf g.project_root) = some m := hm
    have e1 : (add_model g cc fs).1 =
        updateMetadata ((fs.writeFile (modelPath g (strToLower cc.name))).writeFile
            (schemaPath g (strToLower cc.name)))
          g.project_root "db_model" (strToLower cc.name) := by rw [e]
    have e2 : (add_model g cc fs).2 = .success "db_model" (strToLower cc.name) := by
      rw [e]
    refine ⟨e2, ?_, ?_, ?_, ?_⟩
    · rw [e1, updateMetadata_files, if_neg hs]
      rfl
    · rw [e1, updateMetadata_dirs]
      rfl
    · rw [e1, updateMetadata_eq "db_model" (strToLower cc.name) hmeta2 hm2]
      rfl
    · rw [e1, updateMetadata_pathExists]
      exact pathExists_writeFile_self _ _

/-- C5: calling the `add_component` tool twice with `db_model` and the same
name against the same scaffolded project (fresh for that name): the first
call succeeds and appends exactly one `(db_model, name)` manifest record; the
second call returns an `already exists` error result and returns the state of
the first call unchanged — the manifest still holds exactly one record for
that name. -/
theorem claim_C5 (cc : ComponentConfig) (fs : FS) (g : ProjectGenerator)
    (m : Manifest)
    (hkind : cc.component = ComponentType.db_model)
    (hfe : from_existing cc.project_dir fs = .ok g)
    (hroot : g.project_root = cc.project_dir)
    (hmeta : fs.fileExists (metaPathOf g.project_root) = true)
    (hm : fs.manifests.lookup (metaPathOf g.project_root) = some m)
    (hfresh : ∀ e ∈ m.components, e.2 ≠ strToLower cc.name)
    (hmodel : fs.pathExists (modelPath g (strToLower cc.name)) = false) :
    ∃ fs1,
      add_component_tool cc fs = .ok (fs1, .success "db_model" (strToLower cc.name)) ∧
      manifestComponents fs1 g.project_root =
        m.components ++ [("db_model", strToLower cc.name)] ∧
      (manifestComponents fs1 g.project_root).countP
        (fun e => e.2 == strToLower cc.name) = 1 ∧
      add_component_tool cc fs1 =
        .ok (fs1, .error ("Model already exists: " ++
          modelPath g (strToLower cc.name))) := by
  obtain ⟨hres, hfiles1, hdirs1, hman1, hschema1⟩ := add_model_spec hmodel hmeta hm
  obtain ⟨m₀, hmeta₀, hm₀, hg⟩ := from_existing_ok_inv hfe
  have hm₀' : fs.manifests.lookup (metaPathOf cc.project_dir) = some m := by
    rw [← hroot]; exact hm
  have hmeq : m₀ = m := Option.some.inj (hm₀.symm.trans hm₀')
  refine ⟨(add_model g cc fs).1, ?_, ?_, ?_, ?_⟩
  · rw [add_component_tool, hfe]
    simp only [Except.map]
    rw [show add_component g cc fs = add_model g cc fs by
      rw [add_component, hkind]]
    rw [show add_model g cc fs = ((add_model g cc fs).1, (add_model g cc fs).2) from
      (Prod.mk.eta).symm, hres]
  · rw [manifestComponents, hman1]
    simp [List.lookup]
  · have hcomp : manifestComponents (add_model g cc fs).1 g.project_root =
        m.components ++ [("db_model", strToLower cc.name)] := by
      rw [manifestComponents, hman1]
      simp [List.lookup]
    rw [hcomp, List.countP_append]
    have h0 : m.components.countP (fun e => e.2 == strToLower cc.name) = 0 := by
      rw [List.countP_eq_zero]
      intro e he
      simpa using hfresh e he
    rw [h0]
    simp [List.countP_cons]
  · -- the second call: `from_existing` re-reads the manifest written by the
    -- first call (same scalar fields, extended components), rebuilds the same
    -- generator, and `add_model` now hits the existing model file.
    generalize hXdef : (add_model g cc fs).1 = fsX
    rw [hXdef] at hfiles1 hdirs1 hman1 hschema1
    have hmem_meta : metaPathOf cc.project_dir ∈ fsX.files := by
      rw [hfiles1]
      refine List.mem_append_left _ (List.mem_append_left _ ?_)
      rw [← hroot]
      simpa [FS.fileExists] using hmeta
    have hex1 : fsX.fileExists (metaPathOf cc.project_dir) = true := by
      simp [FS.fileExists, hmem_meta]
    have hlk1 : fsX.manifests.lookup (metaPathOf cc.project_dir) =
        some { m with components := m.components ++ [("db_model", strToLower cc.name)] } := by
      rw [hman1, ← hroot]
      simp [List.lookup]
    have hfe1 : from_existing cc.project_dir fsX = .ok g := by
      rw [from_existing, hex1]
      simp only [if_true]
      rw [hlk1, hg, hmeq]
      rfl
    have hmem_model : modelPath g (strToLower cc.name) ∈ fsX.files := by
      rw [hfiles1]
      exact List.mem_append_left _ (List.mem_append_right _ (by simp))
    have hmodel1 : fsX.pathExists (modelPath g (strToLower cc.name)) = true :=
      pathExists_of_mem_files hmem_model
    rw [add_component_tool, hfe1]
    simp only [Except.map]
    rw [show add_component g cc fsX = add_model g cc fsX by
      rw [add_component, hkind]]
    rw [show add_model g cc fsX =
        (fsX, .error ("Model already exists: " ++
          modelPath g (strToLower cc.name))) by
      simp [add_model, hmodel1]]

/-- A fresh `db_model` request for the C5 witness. -/
def cc5 : ComponentConfig := ⟨"/tmp/w/acme", .db_model, "gadget", none⟩

/-- The generator reconstructed from the Scenario A manifest. -/
def gA : ProjectGenerator := mkGenerator (configOfManifest (manifestOf cA) "/tmp/w/acme")

/-- C5 witness: the statement instantiated on the freshly generated Scenario A
project with component name `gadget`. -/
theorem claim_C5_witness :
    ∃ fs1,
      add_component_tool cc5 fsA = .ok (fs1, .success "db_model" (strToLower cc5.name)) ∧
      manifestComponents fs1 gA.project_root =
        (manifestOf cA).components ++ [("db_model", strToLower cc5.name)] ∧
      (manifestComponents fs1 gA.project_root).countP
        (fun e => e.2 == strToLower cc5.name) = 1 ∧
      add_component_tool cc5 fs1 =
        .ok (fs1, .error ("Model already exists: " ++
          modelPath gA (strToLower cc5.name))) :=
  claim_C5 cc5 fsA gA (manifestOf cA) rfl (by decide) (by decide) (by decide)
    (by decide) (by decide) (by decide)

/-- C10: `add_component` with `api_router` and non-empty fields is not atomic
on the `router already exists` error: when the router file already exists but
the model file does not, the call returns an error result, yet the model
file, the schema file and a `(db_model, name)` manifest record have already
been persisted and survive the error. -/
theorem claim_C10 (cc : ComponentConfig) (fs : FS) (g : ProjectGenerator)
    (m : Manifest) (flds : List (String × String))
    (hkind : cc.component = ComponentType.api_router)
    (hflds : cc.fields = some flds) (hne : flds.isEmpty = false)
    (hfe : from_existing cc.project_dir fs = .ok g)
    (hrouter : fs.pathExists (routerPath g (strToLower cc.name)) = true)
    (hmodel : fs.pathExists (modelPath g (strToLower cc.name)) = false)
    (hmeta : fs.fileExists (metaPathOf g.project_root) = true)
    (hm : fs.manifests.lookup (metaPathOf g.project_root) = some m) :
    ∃ fs', add_component_tool cc fs =
        .ok (fs', .error ("Router already exists: " ++
          routerPath g (strToLower cc.name))) ∧
      fs'.fileExists (modelPath g (strToLower cc.name)) = true ∧
      fs'.pathExists (schemaPath g (strToLower cc.name)) = true ∧
      manifestComponents fs' g.project_root =
        m.components ++ [("db_model", strToLower cc.name)] := by
  obtain ⟨hres, hfiles1, hdirs1, hman1, hschema1⟩ := add_model_spec hmodel hmeta hm
  have hrouter1 : (add_model g cc fs).1.pathExists (routerPath g (strToLower cc.name)) = true := by
    simp only [FS.pathExists] at hrouter ⊢
    rw [hfiles1, hdirs1]
    simp only [Bool.or_eq_true] at hrouter ⊢
    rcases hrouter with h | h
    · left
      simp at h ⊢
      tauto
    · exact Or.inr h
  have hstep : add_router g cc fs =
      ((add_model g cc fs).1, .error ("Router already exists: " ++
        routerPath g (strToLower cc.name))) := by
    rw [add_router]
    simp only [hflds, Option.getD_some, hne, Bool.false_eq_true, if_false]
    rw [show add_model g cc fs = ((add_model g cc fs).1, (add_model g cc fs).2) from
      (Prod.mk.eta).symm, hres]
    simp only [hrouter1, if_true]
  refine ⟨(add_model g cc fs).1, ?_, ?_, hschema1, ?_⟩
  · rw [add_component_tool, hfe]
    simp only [Except.map]
    rw [show add_component g cc fs = add_router g cc fs by rw [add_component, hkind]]
    rw [hstep]
  · have hmem_model : modelPath g (strToLower cc.name) ∈ (add_model g cc fs).1.files := by
      rw [hfiles1]
      exact List.mem_append_left _ (List.mem_append_right _ (by simp))
    simpa [FS.fileExists] using hmem_model
  · rw [manifestComponents, hman1]
    simp [List.lookup]

/-- The C10 witness request: the generated project already has the router
`app/routers/users.py` but only the model `app/models/user.py` (singular), so
requesting component `users` with fields hits exactly the non-atomic path. -/
def cc10 : ComponentConfig :=
  ⟨"/tmp/w/acme", .api_router, "users", some [("email", "string")]⟩

/-- C10 witness: the statement instantiated on the freshly generated
Scenario A project with component name `users`. -/
theorem claim_C10_witness :
    ∃ fs', add_component_tool cc10 fsA =
        .ok (fs', .error ("Router already exists: " ++
          routerPath gA (strToLower cc10.name))) ∧
      fs'.fileExists (modelPath gA (strToLower cc10.name)) = true ∧
      fs'.pathExists (schemaPath gA (strToLower cc10.name)) = true ∧
      manifestComponents fs' gA.project_root =
        (manifestOf cA).components ++ [("db_model", strToLower cc10.name)] :=
  claim_C10 cc10 fsA gA (manifestOf cA) [("email", "string")] rfl rfl (by decide)
    (by decide) (by decide) (by decide) (by decide) (by decide)

/-- C8 (amended): `is_multi_repo` is a pure function of `frontendKind`
(`is_multi_repo ↔ frontendKind = react`); in multi-repo mode every recorded
path is either a workspace-root file (no path separator: the README, env
example, Makefile, compose files, CLAUDE.md, the manifest and, for personal
projects, render.yaml) or lies under one of the two sub-roots `{name}-api/`
and `{name}-frontend/`, and both sub-roots are inhabited; every write of a
successful `generate` lands under the single project root. -/
theorem claim_C8 (c : ProjectConfig) :
    (c.is_multi_repo = true ↔ c.frontend_type = FrontendType.react) ∧
    (c.is_multi_repo = true →
      ∀ f ∈ generateFileList c,
        f.data.contains '/' = false ∨
        strIsPre (c.name ++ "-api/") f = true ∨
        strIsPre (c.name ++ "-frontend/") f = true) ∧
    (c.is_multi_repo = true →
      (apiPath c ".gitignore" ∈ generateFileList c ∧
        strIsPre (c.name ++ "-api/") (apiPath c ".gitignore") = true) ∧
      (fePath c ".gitignore" ∈ generateFileList c ∧
        strIsPre (c.name ++ "-frontend/") (fePath c ".gitignore") = true)) ∧
    (∀ fs : FS, ((generate c fs).2).isSuccess = true →
      ((generate c fs).1).files =
        fs.files ++ (generateFileList c).map (fun f => projectRoot c ++ "/" ++ f)) := by
  have hiff : c.is_multi_repo = true ↔ c.frontend_type = FrontendType.react := by
    cases hft : c.frontend_type <;> simp [ProjectConfig.is_multi_repo, hft]
  refine ⟨hiff, ?_, ?_, ?_⟩
  · intro hmr f hf
    have hft : c.frontend_type = FrontendType.react := hiff.mp hmr
    simp only [generateFileList, hft, List.mem_append] at hf
    rcases hf with ((((((hf | hf) | hf) | hf) | hf) | hf) | hf) | hf
    · -- common workspace files
      simp only [commonFiles, hmr, if_true, apiPath, fePath,
        List.cons_append, List.nil_append] at hf
      fin_cases hf
      · exact Or.inl (by decide)
      · exact Or.inl (by decide)
      · exact Or.inl (by decide)
      · exact Or.inr (Or.inl (strIsPre_append _ _))
      · exact Or.inr (Or.inr (strIsPre_append _ _))
    · -- docker compose files
      fin_cases hf
      · exact Or.inl (by decide)
      · exact Or.inl (by decide)
    · -- API tree files
      simp only [apiFiles, apiPath, hmr, if_true, List.mem_append] at hf
      rcases hf with (hf | hf) | hf
      · fin_cases hf <;> exact Or.inr (Or.inl (strIsPre_append _ _))
      · cases hsse : c.include_sse
        · simp [hsse] at hf
        · simp only [hsse, if_true] at hf
          fin_cases hf
          exact Or.inr (Or.inl (strIsPre_append _ _))
      · fin_cases hf <;> exact Or.inr (Or.inl (strIsPre_append _ _))
    · -- React frontend files
      simp only [reactFiles, fePath] at hf
      fin_cases hf <;> exact Or.inr (Or.inr (strIsPre_append _ _))
    · -- CI/CD files
      revert hf
      cases hpt : c.project_type <;> intro hf
      · simp only [azureFiles, hft, apiPath, fePath, hmr, if_true,
          List.cons_append, List.nil_append] at hf
        fin_cases hf
        · exact Or.inr (Or.inl (strIsPre_append _ _))
        · exact Or.inr (Or.inr (strIsPre_append _ _))
        · exact Or.inr (Or.inr (strIsPre_append _ _))
      · simp only [renderFiles] at hf
        fin_cases hf
        exact Or.inl (by decide)
    · -- alembic files
      cases hal : c.include_alembic
      · simp [hal] at hf
      · simp only [hal, if_true, alembicFiles, apiPath, hmr] at hf
        fin_cases hf <;> exact Or.inr (Or.inl (strIsPre_append _ _))
    · -- auth files
      cases hau : c.include_auth
      · simp [hau] at hf
      · simp only [hau, if_true, authFiles, apiPath, hmr] at hf
        fin_cases hf <;> exact Or.inr (Or.inl (strIsPre_append _ _))
    · -- guidelines document and manifest
      fin_cases hf
      · exact Or.inl (by decide)
      · exact Or.inl (by decide)
  · intro hmr
    refine ⟨⟨mem_gfl_common ?_, ?_⟩, ⟨mem_gfl_common ?_, ?_⟩⟩
    · simp [commonFiles, hmr]
    · simp only [apiPath, hmr, if_true]
      exact strIsPre_append _ _
    · simp [commonFiles, hmr]
    · simp only [fePath]
      exact strIsPre_append _ _
  · intro fs hs
    exact (generate_success_fs (Prod.mk.eta (p := generate c fs)).symm hs).1

/-- C8 counterexample: for the Scenario B (react, multi-repo) configuration,
generation records `README.md` at the workspace root — a path under neither
`acme-api/` nor `acme-frontend/` — so the created paths do not all lie under
the two sub-roots. -/
theorem claim_C8_counterexample :
    cB.is_multi_repo = true ∧
    "README.md" ∈ ((create_project cB emptyFS).2).fileListD ∧
    strIsPre ("acme" ++ "-api/") "README.md" = false ∧
    strIsPre ("acme" ++ "-frontend/") "README.md" = false := by
  decide

/-- C8 witness: the amended statement instantiated at the Scenario B
configuration, a concrete multi-repo path and the empty filesystem. -/
theorem claim_C8_witness :
    ("acme-api/.gitignore".data.contains '/' = false ∨
      strIsPre (cB.name ++ "-api/") "acme-api/.gitignore" = true ∨
      strIsPre (cB.name ++ "-frontend/") "acme-api/.gitignore" = true) ∧
    ((generate cB emptyFS).1).files =
      emptyFS.files ++ (generateFileList cB).map (fun f => projectRoot cB ++ "/" ++ f) :=
  ⟨(claim_C8 cB).2.1 (by decide) "acme-api/.gitignore" (by decide),
   (claim_C8 cB).2.2.2 emptyFS (by decide)⟩

end ProjectScaffold
